import Mathlib

/-!
Shallow embedding of find_school_districts.py: a batch pipeline that geocodes
school addresses, loads school-district polygons from a shapefile, performs a
point-in-polygon spatial join, filters matches by a grade-range policy, and
writes two CSV snapshots.

External library calls (the googlemaps client, geopandas sjoin, pandas
to_numeric and groupby) are modelled by explicit Lean functions whose doc
comments record which library behaviour they embed.  Python exceptions are
modelled with Except String; a missing value (None / NaN) with Option.
-/

/-- A longitude/latitude pair, as built by Point(location["lng"], location["lat"]).
Coordinates are opaque data for this pipeline (no arithmetic is performed on
them), so they are modelled as integers. -/
structure Point where
  lng : Int
  lat : Int
deriving DecidableEq, Repr

/-- The "location" object inside a geocode result geometry. -/
structure GeoLocation where
  lng : Int
  lat : Int
deriving DecidableEq, Repr

/-- The "geometry" object of a geocode result entry; the "location" key may be
absent, modelled by Option. -/
structure GeoGeometry where
  location : Option GeoLocation
deriving DecidableEq, Repr

/-- One entry of the geocode result list; the "geometry" key may be absent,
modelled by Option. -/
structure GeocodeEntry where
  geometry : Option GeoGeometry
deriving DecidableEq, Repr

/-- A provider response as seen by get_coordinate: either None or a list of
result entries (the googlemaps client returns a list, empty when the address
resolves to nothing). -/
abbrev GeocodeResponse := Option (List GeocodeEntry)

/-- Embedding of get_coordinate (find_school_districts.py lines 21-41).
The Python code tests, in order: geocode_result is None, "geometry" not in
geocode_result[0], "location" not in geocode_result[0]["geometry"].  The
subscript geocode_result[0] raises IndexError when the result list is empty,
which the Except layer records as an error. -/
def get_coordinate (geocode_result : GeocodeResponse) : Except String (Option Point) :=
  match geocode_result with
  | none => Except.ok none
  | some results =>
    match results with
    | [] => Except.error "IndexError: list index out of range"
    | first :: _ =>
      match first.geometry with
      | none => Except.ok none
      | some geom =>
        match geom.location with
        | none => Except.ok none
        | some loc => Except.ok (some { lng := loc.lng, lat := loc.lat })

/-- Value of a list of decimal digit characters. -/
def digitsVal (cs : List Char) : Nat :=
  cs.foldl (fun acc c => acc * 10 + (c.toNat - 48)) 0

/-- Parse an unsigned decimal literal: integer digits with an optional
fractional part, at least one digit overall.  Returns the value truncated
toward zero (the fractional digits are dropped), or none when the characters
do not form a number. -/
def parseUnsigned (cs : List Char) : Option Int :=
  let intPart := cs.takeWhile Char.isDigit
  let rest := cs.dropWhile Char.isDigit
  match rest with
  | [] => if intPart.isEmpty then none else some (Int.ofNat (digitsVal intPart))
  | '.' :: frac =>
    if frac.all Char.isDigit && !(intPart.isEmpty && frac.isEmpty) then
      some (Int.ofNat (digitsVal intPart))
    else
      none
  | _ => none

/-- Models pd.to_numeric(value, errors="coerce") on a single cell followed by
astype(int) (find_school_districts.py lines 57-62): an optional sign, decimal
digits, an optional fractional part; the numeric value is truncated toward
zero, as the int cast does.  A cell that does not parse as a number yields
none (NaN). -/
def parseNumericTrunc (s : String) : Option Int :=
  match s.toList with
  | '-' :: rest => (parseUnsigned rest).map (fun v => -v)
  | '+' :: rest => parseUnsigned rest
  | cs => parseUnsigned cs

/-- The full coercion applied to a grade field by read_shapefile:
pd.to_numeric(errors="coerce").fillna(0).astype(int) - an unparseable value
becomes NaN, fillna turns NaN into 0, astype truncates to an integer. -/
def coerceGrade (s : String) : Int :=
  (parseNumericTrunc s).getD 0

/-- A pandas cell holding either an integer or a string.  School grade fields
come straight out of pd.read_csv without any coercion, so they can be of
either kind; district grade fields are always integers after read_shapefile. -/
inductive Cell where
  | int (i : Int)
  | str (s : String)
deriving DecidableEq, Repr

/-- Models the pandas elementwise comparison a >= b between two cells:
int >= int and str >= str compare normally, while comparing a str with an int
raises TypeError. -/
def Cell.ge : Cell → Cell → Except String Bool
  | Cell.int a, Cell.int b => Except.ok (decide (b ≤ a))
  | Cell.str a, Cell.str b => Except.ok (decide (b ≤ a))
  | _, _ => Except.error "TypeError"

/-- Models the pandas elementwise comparison a <= b between two cells, with
the same TypeError behaviour on mixed kinds. -/
def Cell.le : Cell → Cell → Except String Bool
  | Cell.int a, Cell.int b => Except.ok (decide (a ≤ b))
  | Cell.str a, Cell.str b => Except.ok (decide (a ≤ b))
  | _, _ => Except.error "TypeError"

/-- A raw record of the district shapefile, as produced by gpd.read_file:
the fields used by read_shapefile plus the remaining columns, which the
loader drops.  Geometry is opaque (an identifier); containment is supplied
as a predicate where needed.  Grade fields arrive as raw strings. -/
structure ShapeRecord where
  statefp : String
  name : String
  geometry : Nat
  lograde : String
  higrade : String
  otherFields : List (String × String)
deriving DecidableEq, Repr

/-- A row of the GeoDataFrame returned by read_shapefile: exactly the four
retained columns NAME, geometry, LOGRADE, HIGRADE, grades coerced to Int. -/
structure District where
  name : String
  geometry : Nat
  lograde : Int
  higrade : Int
deriving DecidableEq, Repr

/-- Embedding of read_shapefile (find_school_districts.py lines 44-65): filter
the rows whose STATEFP equals the given state FIP code (the Python default is
"04"), coerce LOGRADE and HIGRADE with to_numeric/fillna/astype, and keep only
the four columns NAME, geometry, LOGRADE, HIGRADE. -/
def read_shapefile (records : List ShapeRecord) (state_fip : String) : List District :=
  (records.filter (fun r => r.statefp == state_fip)).map
    (fun r =>
      { name := r.name, geometry := r.geometry,
        lograde := coerceGrade r.lograde, higrade := coerceGrade r.higrade })

/-- A row of the input school table, as read from school_data.csv with columns
upper-cased: the three address components and the two grade fields (grades
are whatever pandas read, int or str - no coercion is applied to them). -/
structure SchoolRecord where
  pss_address : String
  pss_city : String
  pss_stabb : String
  lograde : Cell
  higrade : Cell
deriving DecidableEq, Repr

/-- Embedding of the FULL_ADDRESS construction (line 78-80): the agg with
str.join over the columns PSS_ADDRESS, PSS_CITY, PSS_STABB joins the three
values with a comma and no added whitespace. -/
def fullAddress (r : SchoolRecord) : String :=
  r.pss_address ++ "," ++ r.pss_city ++ "," ++ r.pss_stabb

/-- A row of the GeoDataFrame returned by get_all_coordinates: the columns
COORDINATE (nullable point), LOGRADE, HIGRADE. -/
structure CoordRow where
  coordinate : Option Point
  lograde : Cell
  higrade : Cell
deriving DecidableEq, Repr

/-- Apply a fallible operation to every element in order, propagating the
first raised error - the semantics of a pandas Series.apply or elementwise
operation whose per-cell function can raise. -/
def exceptMap {α β : Type} (f : α → Except String β) : List α → Except String (List β)
  | [] => Except.ok []
  | x :: xs =>
    match f x with
    | Except.error e => Except.error e
    | Except.ok y =>
      match exceptMap f xs with
      | Except.error e => Except.error e
      | Except.ok ys => Except.ok (y :: ys)

/-- Embedding of get_all_coordinates (lines 68-84) at row level.  The provider
is abstracted as a response function resp from address strings to geocode
responses.  Each row geocodes its FULL_ADDRESS through get_coordinate; the
returned frame keeps COORDINATE, LOGRADE, HIGRADE.  An exception raised by
get_coordinate on any row propagates out of the apply. -/
def get_all_coordinates (resp : String → GeocodeResponse) (df : List SchoolRecord) :
    Except String (List CoordRow) :=
  exceptMap
    (fun r => (get_coordinate (resp (fullAddress r))).map
      (fun c => { coordinate := c, lograde := r.lograde, higrade := r.higrade }))
    df

/-- One row of the frame produced by gpd.sjoin inside
get_districts_for_coordinates: the left (school) columns with suffix _school,
the right (district) columns with suffix _district, and idx recording the left
row label that sjoin keeps as the index. -/
structure JoinedRow where
  idx : Nat
  lograde_school : Cell
  higrade_school : Cell
  name : String
  lograde_district : Int
  higrade_district : Int
deriving DecidableEq, Repr

/-- The joined row built from left row number i, coordinate row c and
district d. -/
def mkJoinedRow (i : Nat) (c : CoordRow) (d : District) : JoinedRow :=
  { idx := i, lograde_school := c.lograde, higrade_school := c.higrade,
    name := d.name, lograde_district := d.lograde, higrade_district := d.higrade }

/-- Models gpd.sjoin(coords, districts, predicate="within") starting from left
row number i: every pair of a left row with a non-null geometry and a district
polygon containing its point yields one output row; a left row with a missing
(None) geometry matches nothing and contributes no rows.  Output is in left
row order, district rows in frame order within each left row. -/
def sjoin_within_from (within : Point → Nat → Bool) (i : Nat) :
    List CoordRow → List District → List JoinedRow
  | [], _ => []
  | c :: cs, ds =>
    (match c.coordinate with
     | none => []
     | some pt =>
       (ds.filter (fun d => within pt d.geometry)).map (fun d => mkJoinedRow i c d)) ++
    sjoin_within_from within (i + 1) cs ds

/-- The sjoin of line 99-101, with left row labels starting at 0. -/
def sjoin_within (within : Point → Nat → Bool) (coords : List CoordRow)
    (districts : List District) : List JoinedRow :=
  sjoin_within_from within 0 coords districts

/-- The boolean mask entry for one joined row (lines 102-105):
LOGRADE_school >= LOGRADE_district | HIGRADE_school <= HIGRADE_district.
Pandas evaluates both comparisons (no short-circuit); either raises TypeError
when a school grade cell is a string, since district grades are integers. -/
def rowCond (row : JoinedRow) : Except String Bool :=
  match Cell.ge row.lograde_school (Cell.int row.lograde_district) with
  | Except.error e => Except.error e
  | Except.ok a =>
    match Cell.le row.higrade_school (Cell.int row.higrade_district) with
    | Except.error e => Except.error e
    | Except.ok b => Except.ok (a || b)

/-- The grade filter of lines 102-105: compute the boolean mask over all
joined rows (an exception on any row aborts the whole operation), then keep
the rows whose mask entry is true. -/
def grade_filter (rows : List JoinedRow) : Except String (List JoinedRow) :=
  match exceptMap (fun row => (rowCond row).map (fun c => (row, c))) rows with
  | Except.error e => Except.error e
  | Except.ok pairs => Except.ok ((pairs.filter (fun p => p.2)).map (fun p => p.1))

/-- Models grade_filtered_gdf.groupby(level=0)["NAME"].agg(list) (line 106):
group the retained rows by their left row label, and for each label present
produce the list of NAME values in row order; the resulting series is indexed
by the sorted distinct labels.  A label with no retained row is absent. -/
def groupNames (rows : List JoinedRow) : List (Nat × List String) :=
  let idxs := ((rows.map (fun r => r.idx)).dedup).insertionSort (fun a b => a ≤ b)
  idxs.map (fun i => (i, (rows.filter (fun r => r.idx == i)).map (fun r => r.name)))

/-- Embedding of get_districts_for_coordinates (lines 87-107): spatial join,
grade filter, then groupby aggregation into a series of district name lists
keyed by left row label. -/
def get_districts_for_coordinates (within : Point → Nat → Bool)
    (coords_gdf : List CoordRow) (districts : List District) :
    Except String (List (Nat × List String)) :=
  match grade_filter (sjoin_within within coords_gdf districts) with
  | Except.error e => Except.error e
  | Except.ok grade_filtered => Except.ok (groupNames grade_filtered)

/-- Column-name-level model of a pandas DataFrame, for the frame claims about
which columns the pipeline adds. -/
abbrev Cols := List String

/-- Models df[name] = values on a DataFrame with the given columns: setitem
appends the column at the end when absent, overwrites in place when present.
The same rule models df.assign(name=values), which returns the new frame. -/
def setCol (cols : Cols) (name : String) : Cols :=
  if cols.contains name then cols else cols ++ [name]

/-- Column effect of get_all_coordinates on the frame passed to it: line 78
adds FULL_ADDRESS and line 81 adds COORDINATE, both by in-place setitem on the
caller frame (the function receives schools_df itself, not a copy). -/
def get_all_coordinates_cols (cols : Cols) : Cols :=
  setCol (setCol cols "FULL_ADDRESS") "COORDINATE"

/-- Columns of the first CSV written by get_districts_for_schools (lines
126-130): schools_df after the in-place mutation by get_all_coordinates, then
assign(COORDINATE=...) which overwrites the already-present COORDINATE
column. -/
def csv1_cols (schoolCols : Cols) : Cols :=
  setCol (get_all_coordinates_cols schoolCols) "COORDINATE"

/-- Columns of the second CSV written by get_districts_for_schools (lines
132-138): the first snapshot plus assign(DISTRICTS=...). -/
def csv2_cols (schoolCols : Cols) : Cols :=
  setCol (csv1_cols schoolCols) "DISTRICTS"

/-- Concrete district used by the concrete instantiations: grades 0 to 12,
polygon identified by 1. -/
def exDistrict : District :=
  { name := "A", geometry := 1, lograde := 0, higrade := 12 }

/-- Concrete containment predicate: every point lies within polygon 1. -/
def exWithin : Point → Nat → Bool := fun _ g => g == 1

/-- A concrete resolved point. -/
def exPoint : Point := { lng := 10, lat := 20 }

/-- A school row with grades 0 to 5, inside the district polygon. -/
def exRow1 : CoordRow :=
  { coordinate := some exPoint, lograde := Cell.int 0, higrade := Cell.int 5 }

/-- A school row with grades 9 to 12, inside the district polygon. -/
def exRow2 : CoordRow :=
  { coordinate := some exPoint, lograde := Cell.int 9, higrade := Cell.int 12 }

/-- A school row whose address did not geocode: null coordinate. -/
def exRowNull : CoordRow :=
  { coordinate := none, lograde := Cell.int 1, higrade := Cell.int 2 }

/-- A school row whose grade fields are raw strings, as read_csv leaves them
when the column does not parse as numeric. -/
def exRowBad : CoordRow :=
  { coordinate := some exPoint, lograde := Cell.str "abc", higrade := Cell.str "5" }

/-- The joined rows surviving the grade filter for exRow1 and exRow2 against
exDistrict. -/
def exFiltered : List JoinedRow :=
  [mkJoinedRow 0 exRow1 exDistrict, mkJoinedRow 1 exRow2 exDistrict]

/-- A raw shapefile record, in region 04, whose LOGRADE field is the
parseable negative string -2. -/
def exShapeNeg : ShapeRecord :=
  { statefp := "04", name := "D", geometry := 0, lograde := "-2", higrade := "12",
    otherFields := [("FUNCSTAT", "E")] }

/-- A raw shapefile record of another region, to be dropped by the filter. -/
def exShapeOther : ShapeRecord :=
  { statefp := "06", name := "E", geometry := 1, lograde := "0", higrade := "12",
    otherFields := [] }

/-- A concrete input school record. -/
def exSchool : SchoolRecord :=
  { pss_address := "1 Main St", pss_city := "Phoenix", pss_stabb := "AZ",
    lograde := Cell.int 0, higrade := Cell.int 5 }

/-- A concrete school record whose grade fields are the strings K and 5. -/
def exSchoolK : SchoolRecord :=
  { pss_address := "2 Oak Ave", pss_city := "Tucson", pss_stabb := "AZ",
    lograde := Cell.str "K", higrade := Cell.str "5" }

/-- A concrete provider: resolves the two example addresses, anything else
gets the None response. -/
def exResp : String → GeocodeResponse := fun a =>
  if a == "1 Main St,Phoenix,AZ" || a == "2 Oak Ave,Tucson,AZ" then
    some [{ geometry := some { location := some { lng := 7, lat := 8 } } }]
  else
    none

/-- A concrete school record whose address the provider does not resolve. -/
def exSchoolMiss : SchoolRecord :=
  { pss_address := "9 Elm Rd", pss_city := "Mesa", pss_stabb := "AZ",
    lograde := Cell.int 6, higrade := Cell.int 8 }

/-- The coordinate rows produced for exSchool and exSchoolMiss. -/
def exCoordsOut : List CoordRow :=
  [{ coordinate := some { lng := 7, lat := 8 }, lograde := Cell.int 0, higrade := Cell.int 5 },
   { coordinate := none, lograde := Cell.int 6, higrade := Cell.int 8 }]

/-- The school table columns after read_csv and upper-casing. -/
def exCols : Cols := ["PSS_ADDRESS", "PSS_CITY", "PSS_STABB", "LOGRADE", "HIGRADE"]

/-! Helper lemmas about exceptMap, the spatial join, the grade filter and the
groupby aggregation. -/

theorem exceptMap_ok_length {α β : Type} (f : α → Except String β) :
    ∀ (xs : List α) (ys : List β), exceptMap f xs = Except.ok ys → ys.length = xs.length := by
  intro xs
  induction xs with
  | nil =>
    intro ys h
    simp [exceptMap] at h
    simp [h]
  | cons x xs ih =>
    intro ys h
    cases hf : f x with
    | error e => simp [exceptMap, hf] at h
    | ok y =>
      cases hm : exceptMap f xs with
      | error e => simp [exceptMap, hf, hm] at h
      | ok ys' =>
        simp [exceptMap, hf, hm] at h
        subst h
        simp [ih ys' hm]

theorem exceptMap_ok_get {α β : Type} (f : α → Except String β) :
    ∀ (xs : List α) (ys : List β), exceptMap f xs = Except.ok ys →
      ∀ (i : Nat) (hi : i < xs.length) (hi' : i < ys.length),
        f (xs.get ⟨i, hi⟩) = Except.ok (ys.get ⟨i, hi'⟩) := by
  intro xs
  induction xs with
  | nil =>
    intro ys h i hi
    exact absurd hi (by simp)
  | cons x xs ih =>
    intro ys h i hi hi'
    cases hf : f x with
    | error e => simp [exceptMap, hf] at h
    | ok y =>
      cases hm : exceptMap f xs with
      | error e => simp [exceptMap, hf, hm] at h
      | ok ys' =>
        simp [exceptMap, hf, hm] at h
        subst h
        cases i with
        | zero => simpa using hf
        | succ n =>
          have hn : n < xs.length := Nat.lt_of_succ_lt_succ hi
          have hn' : n < ys'.length := Nat.lt_of_succ_lt_succ hi'
          simpa using ih ys' hm n hn hn'

theorem exceptMap_mem_ok {α β : Type} (f : α → Except String β) :
    ∀ (xs : List α) (ys : List β), exceptMap f xs = Except.ok ys →
      ∀ y, y ∈ ys ↔ ∃ x ∈ xs, f x = Except.ok y := by
  intro xs
  induction xs with
  | nil =>
    intro ys h y
    simp [exceptMap] at h
    subst h
    simp
  | cons x xs ih =>
    intro ys h y
    cases hf : f x with
    | error e => simp [exceptMap, hf] at h
    | ok y0 =>
      cases hm : exceptMap f xs with
      | error e => simp [exceptMap, hf, hm] at h
      | ok ys' =>
        simp [exceptMap, hf, hm] at h
        subst h
        constructor
        · intro hy
          rcases List.mem_cons.mp hy with rfl | hy'
          · exact ⟨x, List.mem_cons_self x xs, hf⟩
          · rcases (ih ys' hm y).mp hy' with ⟨x', hx', hfx'⟩
            exact ⟨x', List.mem_cons_of_mem x hx', hfx'⟩
        · rintro ⟨x', hx', hfx'⟩
          rcases List.mem_cons.mp hx' with rfl | hx''
          · rw [hf] at hfx'
            cases hfx'
            exact List.mem_cons_self _ _
          · exact List.mem_cons_of_mem _ ((ih ys' hm y).mpr ⟨x', hx'', hfx'⟩)

theorem exceptMap_error_of_mem {α β : Type} (f : α → Except String β) (e : String)
    (hall : ∀ x, (∃ y, f x = Except.ok y) ∨ f x = Except.error e) :
    ∀ (xs : List α) (x : α), x ∈ xs → f x = Except.error e →
      exceptMap f xs = Except.error e := by
  intro xs
  induction xs with
  | nil =>
    intro x hx
    cases hx
  | cons a as ih =>
    intro x hx hfx
    rcases List.mem_cons.mp hx with rfl | hx'
    · simp [exceptMap, hfx]
    · rcases hall a with ⟨y, hy⟩ | ha
      · simp [exceptMap, hy, ih x hx' hfx]
      · simp [exceptMap, ha]

theorem rowCond_ok_or_typeerror (row : JoinedRow) :
    (∃ b, rowCond row = Except.ok b) ∨ rowCond row = Except.error "TypeError" := by
  cases hl : row.lograde_school with
  | int a =>
    cases hh : row.higrade_school with
    | int c =>
      exact Or.inl ⟨decide (row.lograde_district ≤ a) || decide (c ≤ row.higrade_district),
        by simp [rowCond, hl, hh, Cell.ge, Cell.le]⟩
    | str s => exact Or.inr (by simp [rowCond, hl, hh, Cell.ge, Cell.le])
  | str s => exact Or.inr (by simp [rowCond, hl, Cell.ge])

theorem grade_filter_mem (rows out : List JoinedRow)
    (h : grade_filter rows = Except.ok out) (j : JoinedRow) :
    j ∈ out ↔ (j ∈ rows ∧ rowCond j = Except.ok true) := by
  unfold grade_filter at h
  cases hp : exceptMap (fun row => (rowCond row).map (fun c => (row, c))) rows with
  | error e => rw [hp] at h; cases h
  | ok pairs =>
    rw [hp] at h
    have hout : out = (pairs.filter (fun p => p.2)).map (fun p => p.1) := by
      cases h; rfl
    subst hout
    have hmem := exceptMap_mem_ok _ rows pairs hp
    constructor
    · intro hj
      rcases List.mem_map.mp hj with ⟨p, hpf, hpe⟩
      rcases List.mem_filter.mp hpf with ⟨hpin, hptrue⟩
      rcases (hmem p).mp hpin with ⟨x, hx, hfx⟩
      cases hc : rowCond x with
      | error e => rw [hc] at hfx; cases hfx
      | ok c =>
        rw [hc] at hfx
        simp [Except.map] at hfx
        have hxp : p = (x, c) := hfx.symm
        subst hxp
        have hxj : x = j := hpe
        subst hxj
        have hct : c = true := hptrue
        subst hct
        exact ⟨hx, hc⟩
    · rintro ⟨hjin, hjc⟩
      have hpj : (j, true) ∈ pairs :=
        (hmem (j, true)).mpr ⟨j, hjin, by simp [hjc, Except.map]⟩
      exact List.mem_map.mpr ⟨(j, true), List.mem_filter.mpr ⟨hpj, rfl⟩, rfl⟩

theorem grade_filter_error_of_str (rows : List JoinedRow) (j : JoinedRow) (s : String)
    (hj : j ∈ rows) (hs : j.lograde_school = Cell.str s) :
    grade_filter rows = Except.error "TypeError" := by
  have hcond : rowCond j = Except.error "TypeError" := by
    simp [rowCond, hs, Cell.ge]
  have hall : ∀ row : JoinedRow,
      (∃ y, (rowCond row).map (fun c => (row, c)) = Except.ok y) ∨
        (rowCond row).map (fun c => (row, c)) = Except.error "TypeError" := by
    intro row
    rcases rowCond_ok_or_typeerror row with ⟨b, hb⟩ | hb
    · exact Or.inl ⟨(row, b), by simp [hb, Except.map]⟩
    · exact Or.inr (by simp [hb, Except.map])
  have herr := exceptMap_error_of_mem _ "TypeError" hall rows j hj
    (by simp [hcond, Except.map])
  unfold grade_filter
  rw [herr]

theorem sjoin_from_idx_ge (within : Point → Nat → Bool) (cs : List CoordRow) :
    ∀ (i : Nat) (ds : List District) (j : JoinedRow),
      j ∈ sjoin_within_from within i cs ds → i ≤ j.idx := by
  induction cs with
  | nil =>
    intro i ds j h
    simp [sjoin_within_from] at h
  | cons c cs ih =>
    intro i ds j h
    rw [sjoin_within_from] at h
    rcases List.mem_append.mp h with h1 | h2
    · cases hc : c.coordinate with
      | none => rw [hc] at h1; simp at h1
      | some pt =>
        rw [hc] at h1
        rcases List.mem_map.mp h1 with ⟨d, _, hjd⟩
        subst hjd
        simp [mkJoinedRow]
    · exact Nat.le_of_succ_le (ih (i + 1) ds j h2)

theorem sjoin_from_null_ne (within : Point → Nat → Bool) (cs : List CoordRow) :
    ∀ (i k : Nat) (hk : k < cs.length) (ds : List District),
      (cs.get ⟨k, hk⟩).coordinate = none →
      ∀ j ∈ sjoin_within_from within i cs ds, j.idx ≠ i + k := by
  induction cs with
  | nil =>
    intro i k hk
    exact absurd hk (by simp)
  | cons c cs ih =>
    intro i k hk ds hnull j hj heq
    rw [sjoin_within_from] at hj
    rcases List.mem_append.mp hj with h1 | h2
    · cases k with
      | zero =>
        have hcn : c.coordinate = none := hnull
        rw [hcn] at h1
        simp at h1
      | succ n =>
        cases hc : c.coordinate with
        | none => rw [hc] at h1; simp at h1
        | some pt =>
          rw [hc] at h1
          rcases List.mem_map.mp h1 with ⟨d, _, hjd⟩
          subst hjd
          simp [mkJoinedRow] at heq
    · cases k with
      | zero =>
        have hge := sjoin_from_idx_ge within cs (i + 1) ds j h2
        omega
      | succ n =>
        have hn : n < cs.length := Nat.lt_of_succ_lt_succ hk
        have hnull' : (cs.get ⟨n, hn⟩).coordinate = none := hnull
        exact ih (i + 1) n hn ds hnull' j h2 (by omega)

theorem groupNames_mem (rows : List JoinedRow) (p : Nat × List String)
    (hp : p ∈ groupNames rows) :
    (∃ j ∈ rows, j.idx = p.1) ∧
      p.2 = (rows.filter (fun r => r.idx == p.1)).map (fun r => r.name) := by
  unfold groupNames at hp
  rcases List.mem_map.mp hp with ⟨i, hi, hpe⟩
  subst hpe
  have hi2 : i ∈ (rows.map (fun r => r.idx)).dedup :=
    (List.perm_insertionSort (fun a b => a ≤ b) _).mem_iff.mp hi
  have hi3 : i ∈ rows.map (fun r => r.idx) := List.mem_dedup.mp hi2
  rcases List.mem_map.mp hi3 with ⟨j, hj, hji⟩
  exact ⟨⟨j, hj, hji⟩, rfl⟩

/-! Claim theorems. -/

/-- Claim C1: among joined (school point, district polygon) pairs - membership in
the sjoin output means the point lies within the polygon - the matcher retains
a pair exactly when the school low grade is at least the district low grade or
the school high grade is at most the district high grade (inclusive-or). -/
theorem grade_policy_or_iff (within : Point → Nat → Bool)
    (coords : List CoordRow) (districts : List District) (out : List JoinedRow)
    (h : grade_filter (sjoin_within within coords districts) = Except.ok out)
    (j : JoinedRow) (hj : j ∈ sjoin_within within coords districts)
    (ls hs : Int) (hls : j.lograde_school = Cell.int ls)
    (hhs : j.higrade_school = Cell.int hs) :
    j ∈ out ↔ (j.lograde_district ≤ ls ∨ hs ≤ j.higrade_district) := by
  rw [grade_filter_mem _ out h j]
  simp [hj, rowCond, hls, hhs, Cell.ge, Cell.le]

/-- Witness for C1 at the two spec examples: a school with grades 0 to 5 and
a school with grades 9 to 12, each joined against the district with grades
0 to 12, are both retained. -/
theorem grade_policy_or_iff_witness :
    (mkJoinedRow 0 exRow1 exDistrict ∈ exFiltered ↔
      ((0 : Int) ≤ 0 ∨ (5 : Int) ≤ 12)) ∧
    (mkJoinedRow 1 exRow2 exDistrict ∈ exFiltered ↔
      ((0 : Int) ≤ 9 ∨ (12 : Int) ≤ 12)) :=
  ⟨grade_policy_or_iff exWithin [exRow1, exRow2] [exDistrict] exFiltered rfl
      (mkJoinedRow 0 exRow1 exDistrict) (by decide) 0 5 rfl rfl,
    grade_policy_or_iff exWithin [exRow1, exRow2] [exDistrict] exFiltered rfl
      (mkJoinedRow 1 exRow2 exDistrict) (by decide) 9 12 rfl rfl⟩

/-- Claim C2: get_coordinate returns the no-result sentinel for a None response,
for a first result without geometry and for a geometry without location, but
an empty result list makes the subscript geocode_result[0] raise IndexError
instead of returning the sentinel, contradicting the docstring of
get_coordinate (an address that cannot be geocoded yields an empty result
list from the provider). -/
theorem empty_geocode_result_raises_index_error :
    get_coordinate (some []) = Except.error "IndexError: list index out of range" ∧
    get_coordinate none = Except.ok none ∧
    get_coordinate (some [{ geometry := none }]) = Except.ok none ∧
    get_coordinate (some [{ geometry := some { location := none } }]) = Except.ok none :=
  ⟨rfl, rfl, rfl, rfl⟩

/-- Claim C3: the coordinate-resolution step builds the composite address by
comma-joining address, city and state abbreviation with no extra whitespace,
preserves row count and row order, and produces exactly one coordinate (or
null) per input row. -/
theorem coordinates_preserve_rows (resp : String → GeocodeResponse)
    (df : List SchoolRecord) (out : List CoordRow)
    (h : get_all_coordinates resp df = Except.ok out) :
    out.length = df.length ∧
    (∀ (i : Nat) (hi : i < df.length) (hi' : i < out.length),
      ∃ c, get_coordinate (resp (fullAddress (df.get ⟨i, hi⟩))) = Except.ok c ∧
        out.get ⟨i, hi'⟩ =
          { coordinate := c, lograde := (df.get ⟨i, hi⟩).lograde,
            higrade := (df.get ⟨i, hi⟩).higrade }) ∧
    (∀ r, fullAddress r = r.pss_address ++ "," ++ r.pss_city ++ "," ++ r.pss_stabb) := by
  unfold get_all_coordinates at h
  refine ⟨exceptMap_ok_length _ df out h, ?_, fun r => rfl⟩
  intro i hi hi'
  have hg := exceptMap_ok_get _ df out h i hi hi'
  cases hc : get_coordinate (resp (fullAddress (df.get ⟨i, hi⟩))) with
  | error e => rw [hc] at hg; cases hg
  | ok c =>
    rw [hc] at hg
    simp [Except.map] at hg
    exact ⟨c, rfl, hg.symm⟩

/-- Witness for C3: a two-row table, one resolvable address and one
unresolvable address, yields two coordinate rows in order. -/
theorem coordinates_preserve_rows_witness :
    exCoordsOut.length = [exSchool, exSchoolMiss].length ∧
    (∀ (i : Nat) (hi : i < [exSchool, exSchoolMiss].length) (hi' : i < exCoordsOut.length),
      ∃ c, get_coordinate (exResp (fullAddress ([exSchool, exSchoolMiss].get ⟨i, hi⟩))) =
          Except.ok c ∧
        exCoordsOut.get ⟨i, hi'⟩ =
          { coordinate := c, lograde := ([exSchool, exSchoolMiss].get ⟨i, hi⟩).lograde,
            higrade := ([exSchool, exSchoolMiss].get ⟨i, hi⟩).higrade }) ∧
    (∀ r, fullAddress r = r.pss_address ++ "," ++ r.pss_city ++ "," ++ r.pss_stabb) :=
  coordinates_preserve_rows exResp [exSchool, exSchoolMiss] exCoordsOut rfl

/-- Claim C4: grade coercion parses numeric strings and coerces parse failures to
0 without raising: K, the empty string and abc give 0, 9 gives 9, -2 gives
-2 (the sign is not clamped), and every value that fails to parse gives 0. -/
theorem grade_coercion_values :
    coerceGrade "K" = 0 ∧ coerceGrade "" = 0 ∧ coerceGrade "abc" = 0 ∧
    coerceGrade "9" = 9 ∧ coerceGrade "-2" = -2 ∧
    (∀ s, parseNumericTrunc s = none → coerceGrade s = 0) := by
  refine ⟨by decide, by decide, by decide, by decide, by decide, ?_⟩
  intro s hs
  simp [coerceGrade, hs]

/-- Witness for C4 on the unparseable value 4K. -/
theorem grade_coercion_values_witness :
    parseNumericTrunc "4K" = none ∧ coerceGrade "4K" = 0 :=
  ⟨by decide, grade_coercion_values.2.2.2.2.2 "4K" (by decide)⟩

/-- Counterexample to claim C5: a school row whose grade cells are strings (as
pd.read_csv leaves a non-numeric grade column) makes the district matcher
raise TypeError at the grade comparison instead of being coerced to 0 -
the coercion of lines 57-62 is applied only to the district shapefile. -/
theorem school_string_grade_matcher_error_counterexample :
    get_districts_for_coordinates exWithin [exRowBad] [exDistrict] =
      Except.error "TypeError" := rfl

/-- Amended claim C5: unparseable district grade values are coerced to 0 silently,
but school grade fields are never coerced, and a school row whose grade cell
is a string that reaches the grade comparison makes the whole matcher raise
TypeError. -/
theorem school_string_grade_matcher_error
    (within : Point → Nat → Bool) (coords : List CoordRow) (districts : List District)
    (j : JoinedRow) (s : String)
    (hj : j ∈ sjoin_within within coords districts)
    (hs : j.lograde_school = Cell.str s) :
    (∀ t, parseNumericTrunc t = none → coerceGrade t = 0) ∧
    get_districts_for_coordinates within coords districts = Except.error "TypeError" := by
  refine ⟨fun t ht => by simp [coerceGrade, ht], ?_⟩
  unfold get_districts_for_coordinates
  rw [grade_filter_error_of_str _ j s hj hs]

/-- Witness for the amended C5 on a concrete one-row join. -/
theorem school_string_grade_matcher_error_witness :
    (∀ t, parseNumericTrunc t = none → coerceGrade t = 0) ∧
    get_districts_for_coordinates exWithin [exRowBad] [exDistrict] =
      Except.error "TypeError" :=
  school_string_grade_matcher_error exWithin [exRowBad] [exDistrict]
    (mkJoinedRow 0 exRowBad exDistrict) "abc" (by decide) rfl

/-- Counterexample to claim C6: a district record whose LOGRADE field is the parseable
string -2 is loaded with a negative grade bound, and a school record whose
grade cells are strings keeps them as strings through the coordinate step -
so grade bounds held in memory are not always non-negative integers. -/
theorem negative_grade_loaded_counterexample :
    read_shapefile [exShapeNeg] "04" =
      [{ name := "D", geometry := 0, lograde := -2, higrade := 12 }] ∧
    ¬ (∀ d ∈ read_shapefile [exShapeNeg] "04", 0 ≤ d.lograde) ∧
    get_all_coordinates exResp [exSchoolK] = Except.ok
      [{ coordinate := some { lng := 7, lat := 8 }, lograde := Cell.str "K",
         higrade := Cell.str "5" }] := by
  refine ⟨rfl, ?_, rfl⟩
  decide

/-- Amended claim C6: after loading, district grade bounds are integers
(unparseable input coerced to 0), and they are non-negative provided every
parseable grade value in the input shapefile is non-negative; a negative
parseable value is preserved with its sign. -/
theorem loaded_grades_nonneg_when_inputs_nonneg (records : List ShapeRecord) (fip : String)
    (hlo : ∀ r ∈ records, ∀ v, parseNumericTrunc r.lograde = some v → 0 ≤ v)
    (hhi : ∀ r ∈ records, ∀ v, parseNumericTrunc r.higrade = some v → 0 ≤ v) :
    ∀ d ∈ read_shapefile records fip, 0 ≤ d.lograde ∧ 0 ≤ d.higrade := by
  intro d hd
  unfold read_shapefile at hd
  rcases List.mem_map.mp hd with ⟨r, hrf, hrd⟩
  rcases List.mem_filter.mp hrf with ⟨hrin, _⟩
  subst hrd
  constructor
  · cases hp : parseNumericTrunc r.lograde with
    | none => simp [coerceGrade, hp]
    | some v => simpa [coerceGrade, hp] using hlo r hrin v hp
  · cases hp : parseNumericTrunc r.higrade with
    | none => simp [coerceGrade, hp]
    | some v => simpa [coerceGrade, hp] using hhi r hrin v hp

/-- Witness for the amended C6 on a record with grades 0 and 12. -/
theorem loaded_grades_nonneg_witness :
    0 ≤ ({ name := "E", geometry := 1, lograde := 0, higrade := 12 } : District).lograde ∧
    0 ≤ ({ name := "E", geometry := 1, lograde := 0, higrade := 12 } : District).higrade :=
  loaded_grades_nonneg_when_inputs_nonneg [exShapeOther] "06"
    (by
      intro r hr v hv
      have hr0 : r = exShapeOther := by simpa using hr
      subst hr0
      have h0 : parseNumericTrunc exShapeOther.lograde = some 0 := by decide
      rw [h0] at hv
      injection hv with hv0
      omega)
    (by
      intro r hr v hv
      have hr0 : r = exShapeOther := by simpa using hr
      subst hr0
      have h12 : parseNumericTrunc exShapeOther.higrade = some 12 := by decide
      rw [h12] at hv
      injection hv with hv0
      omega)
    { name := "E", geometry := 1, lograde := 0, higrade := 12 } (by decide)

/-- Claim C7: a row whose coordinate is null contributes no row to the spatial
join, and its label is absent from every district match the matcher
returns. -/
theorem null_coordinate_excluded (within : Point → Nat → Bool)
    (coords : List CoordRow) (districts : List District)
    (i : Nat) (hi : i < coords.length)
    (hnull : (coords.get ⟨i, hi⟩).coordinate = none) :
    (∀ j ∈ sjoin_within within coords districts, j.idx ≠ i) ∧
    (∀ res, get_districts_for_coordinates within coords districts = Except.ok res →
      ∀ p ∈ res, p.1 ≠ i) := by
  have hsj : ∀ j ∈ sjoin_within within coords districts, j.idx ≠ i := by
    intro j hj
    unfold sjoin_within at hj
    have := sjoin_from_null_ne within coords 0 i hi districts hnull j hj
    simpa using this
  refine ⟨hsj, ?_⟩
  intro res hres p hp hpi
  unfold get_districts_for_coordinates at hres
  cases hf : grade_filter (sjoin_within within coords districts) with
  | error e => rw [hf] at hres; cases hres
  | ok filtered =>
    rw [hf] at hres
    have hresg : res = groupNames filtered := by cases hres; rfl
    subst hresg
    rcases (groupNames_mem filtered p hp).1 with ⟨j, hjf, hji⟩
    have hjs : j ∈ sjoin_within within coords districts :=
      ((grade_filter_mem _ filtered hf j).mp hjf).1
    exact hsj j hjs (hji.trans hpi)

/-- Witness for C7 on a one-row table whose coordinate is null. -/
theorem null_coordinate_excluded_witness :
    (∀ j ∈ sjoin_within exWithin [exRowNull] [exDistrict], j.idx ≠ 0) ∧
    (∀ res, get_districts_for_coordinates exWithin [exRowNull] [exDistrict] = Except.ok res →
      ∀ p ∈ res, p.1 ≠ 0) :=
  null_coordinate_excluded exWithin [exRowNull] [exDistrict] 0 (by decide) rfl

/-- Claim C8: a row label with no joined polygon surviving the grade filter is
absent from the matcher result (the run still succeeds), and every entry of
the result carries the list of all qualifying district names for its
label, in join row order. -/
theorem matcher_omits_and_aggregates (within : Point → Nat → Bool)
    (coords : List CoordRow) (districts : List District)
    (filtered : List JoinedRow) (res : List (Nat × List String))
    (h1 : grade_filter (sjoin_within within coords districts) = Except.ok filtered)
    (h2 : get_districts_for_coordinates within coords districts = Except.ok res) :
    (∀ i, (∀ j ∈ filtered, j.idx ≠ i) → ∀ p ∈ res, p.1 ≠ i) ∧
    (∀ p ∈ res, p.2 = (filtered.filter (fun r => r.idx == p.1)).map (fun r => r.name)) := by
  unfold get_districts_for_coordinates at h2
  rw [h1] at h2
  have hres : res = groupNames filtered := by cases h2; rfl
  subst hres
  constructor
  · intro i hno p hp hpi
    rcases (groupNames_mem filtered p hp).1 with ⟨j, hjf, hji⟩
    exact hno j hjf (hji.trans hpi)
  · intro p hp
    exact (groupNames_mem filtered p hp).2

/-- Witness for C8: three rows, two matching the district and one null, give
a result with exactly the labels 0 and 1 and all qualifying names. -/
theorem matcher_omits_and_aggregates_witness :
    (∀ i, (∀ j ∈ exFiltered, j.idx ≠ i) →
      ∀ p ∈ ([(0, ["A"]), (1, ["A"])] : List (Nat × List String)), p.1 ≠ i) ∧
    (∀ p ∈ ([(0, ["A"]), (1, ["A"])] : List (Nat × List String)),
      p.2 = (exFiltered.filter (fun r => r.idx == p.1)).map (fun r => r.name)) :=
  matcher_omits_and_aggregates exWithin [exRow1, exRow2, exRowNull] [exDistrict]
    exFiltered [(0, ["A"]), (1, ["A"])] rfl rfl

/-- Claim C9: the loader output holds exactly the records whose state code equals
the region code, each reduced to the four retained fields name, geometry,
low grade, high grade (with the grades coerced). -/
theorem read_shapefile_filter_fields (records : List ShapeRecord) (fip : String)
    (d : District) :
    d ∈ read_shapefile records fip ↔
      ∃ r ∈ records, r.statefp = fip ∧
        d = { name := r.name, geometry := r.geometry,
              lograde := coerceGrade r.lograde, higrade := coerceGrade r.higrade } := by
  unfold read_shapefile
  constructor
  · intro hd
    rcases List.mem_map.mp hd with ⟨r, hrf, hrd⟩
    rcases List.mem_filter.mp hrf with ⟨hrin, hfip⟩
    exact ⟨r, hrin, by simpa using hfip, hrd.symm⟩
  · rintro ⟨r, hrin, hfip, hrd⟩
    subst hrd
    exact List.mem_map.mpr ⟨r, List.mem_filter.mpr ⟨hrin, by simpa using hfip⟩, rfl⟩

/-- Counterexample to claim C10: the first CSV does not hold only the input columns
plus COORDINATE - the in-place mutation inside get_all_coordinates leaks the
FULL_ADDRESS column into the saved frame. -/
theorem csv_columns_counterexample :
    csv1_cols exCols ≠ exCols ++ ["COORDINATE"] ∧
    csv1_cols exCols = exCols ++ ["FULL_ADDRESS", "COORDINATE"] := by
  constructor
  · decide
  · rfl

/-- Amended claim C10: for an input frame without the derived columns, the first
CSV holds the input columns plus FULL_ADDRESS and COORDINATE, and the second
the same plus DISTRICTS. -/
theorem csv_columns (schoolCols : Cols)
    (h1 : "FULL_ADDRESS" ∉ schoolCols)
    (h2 : "COORDINATE" ∉ schoolCols)
    (h3 : "DISTRICTS" ∉ schoolCols) :
    csv1_cols schoolCols = schoolCols ++ ["FULL_ADDRESS", "COORDINATE"] ∧
    csv2_cols schoolCols = schoolCols ++ ["FULL_ADDRESS", "COORDINATE", "DISTRICTS"] := by
  have hc1 : csv1_cols schoolCols = schoolCols ++ ["FULL_ADDRESS", "COORDINATE"] := by
    simp [csv1_cols, get_all_coordinates_cols, setCol, h1, h2]
  have hc2 : csv2_cols schoolCols =
      schoolCols ++ ["FULL_ADDRESS", "COORDINATE", "DISTRICTS"] := by
    simp [csv2_cols, hc1, setCol, h3]
  exact ⟨hc1, hc2⟩

/-- Witness for the amended C10 on the concrete school table columns. -/
theorem csv_columns_witness :
    csv1_cols exCols = exCols ++ ["FULL_ADDRESS", "COORDINATE"] ∧
    csv2_cols exCols = exCols ++ ["FULL_ADDRESS", "COORDINATE", "DISTRICTS"] :=
  csv_columns exCols (by decide) (by decide) (by decide)
